import Mathlib

/-!
Shallow embedding of the gallery-viewing subsystem of the public-site
repository: the pagination accumulator built on the infinite-query hooks
(src/api/hooks/useGalleryImagesInfinite.ts and src/api/client.ts), the
virtualized window calculator
(src/components/features/gallery/VirtualizedGalleryGrid/VirtualizedGalleryGrid.tsx),
the lightbox navigation state machine (src/hooks/useLightbox.ts), the
pinch-zoom gesture recognizer (src/hooks/usePinchZoom.ts) and the
deep-link effect of GalleryContainer
(src/containers/GalleryContainer/GalleryContainer.tsx).

JavaScript numbers are modelled as Int where a value can be negative in
the source (lightbox indices, touch coordinates) and as Nat where the
source only ever produces non-negative integers (pixel offsets, lengths,
counts).  Math.max / Math.min become max / min; Math.floor of a
non-negative division becomes Nat division; Math.ceil (a / b) becomes
(a + b - 1) / b; the JavaScript remainder operator, which takes the sign
of the dividend, becomes Int.tmod.
-/

/-- Image record as delivered by the backend, from src/types/gallery.ts
(interface GalleryImage: id, cloudinary_url, caption, display_order). -/
structure GalleryImage where
  id : Int
  cloudinary_url : String
  caption : Option String
  display_order : Int
deriving DecidableEq, Repr

/-- Pagination metadata from src/types/gallery.ts (interface
PaginationMetadata: next_cursor, has_more, total_count). -/
structure PaginationMetadata where
  next_cursor : Option Int
  has_more : Bool
  total_count : Int
deriving DecidableEq, Repr

/-- One page of the gallery response, from src/types/gallery.ts
(interface GalleryResponse: images, pagination). -/
structure GalleryResponse where
  images : List GalleryImage
  pagination : PaginationMetadata
deriving DecidableEq, Repr

/-- The pages field of the InfiniteData value maintained by the
infinite query in useGalleryImagesInfinite: the pages in the order the
query stored them. -/
structure InfiniteData where
  pages : List GalleryResponse
deriving DecidableEq, Repr

/-- flattenGalleryImages from src/api/hooks/useGalleryImagesInfinite.ts:
data?.pages.flatMap(page => page.images) ?? []. -/
def flattenGalleryImages (data : Option InfiniteData) : List GalleryImage :=
  match data with
  | none => []
  | some d => d.pages.flatMap (fun page => page.images)

/-- getNextPageParam from useGalleryImagesInfinite:
lastPage.pagination.has_more ? lastPage.pagination.next_cursor : undefined.
The undefined result (returned also when next_cursor is null) is none. -/
def getNextPageParam (lastPage : GalleryResponse) : Option Int :=
  if lastPage.pagination.has_more then lastPage.pagination.next_cursor else none

/-- Items per row from VirtualizedGalleryGrid.tsx:
window.innerWidth > 1024 ? 3 : window.innerWidth > 768 ? 2 : 1. -/
def itemsPerRow (innerWidth : Nat) : Nat :=
  if innerWidth > 1024 then 3 else if innerWidth > 768 then 2 else 1

/-- VIEWPORT_BUFFER constant from VirtualizedGalleryGrid.tsx (1000 px). -/
def VIEWPORT_BUFFER : Nat := 1000

/-- Half-open mounted index interval of VirtualizedGalleryGrid
(the visibleRange state, fields start and end). -/
structure WindowRange where
  start : Nat
  stop : Nat
deriving DecidableEq, Repr

/-- The rowsInViewport computation shared by the mount effect and the
scroll handler of VirtualizedGalleryGrid:
Math.ceil((viewportHeight + VIEWPORT_BUFFER * 2) / itemHeight) with
itemHeight = 300. -/
def rowsInViewport (innerHeight : Nat) : Nat :=
  (innerHeight + VIEWPORT_BUFFER * 2 + 299) / 300

/-- Initial visible range computed by the mount effect of
VirtualizedGalleryGrid: start 0, end Math.min(images.length, visibleCount * 2)
where visibleCount = rowsInViewport * itemsPerRow. -/
def initialVisibleRange (innerWidth innerHeight len : Nat) : WindowRange :=
  let ipr := itemsPerRow innerWidth
  let visibleCount := rowsInViewport innerHeight * ipr
  ⟨0, min len (visibleCount * 2)⟩

/-- Range computed by the scroll/resize handler of VirtualizedGalleryGrid:
rowsAbove = Math.floor(scrollTop / 300);
start = Math.max(0, rowsAbove * itemsPerRow - itemsPerRow);
end = Math.min(images.length, start + visibleCount + itemsPerRow * 2).
All quantities are non-negative, so Math.max(0, a - b) is Nat subtraction. -/
def handleScrollRange (innerWidth innerHeight scrollTop len : Nat) : WindowRange :=
  let ipr := itemsPerRow innerWidth
  let rowsAbove := scrollTop / 300
  let start := rowsAbove * ipr - ipr
  let visibleCount := rowsInViewport innerHeight * ipr
  ⟨start, min len (start + visibleCount + ipr * 2)⟩

/-- The setVisibleRange update of the scroll handler: the freshly
computed range is adopted only when it differs from the previous one by
more than itemsPerRow in either endpoint
(Math.abs(prev.start - start) > itemsPerRow or the same for end);
otherwise the previous range is kept. -/
def commitScrollRange (ipr : Nat) (prev next : WindowRange) : WindowRange :=
  if Nat.dist prev.start next.start > ipr ∨ Nat.dist prev.stop next.stop > ipr then
    next
  else
    prev

/-- Top-sentinel IntersectionObserver update of VirtualizedGalleryGrid:
when the top sentinel intersects and visibleRange.start > 0, the range
becomes { start: Math.max(0, prev.start - 20), end: prev.end }. -/
def topSentinelStep (r : WindowRange) : WindowRange :=
  if 0 < r.start then ⟨r.start - 20, r.stop⟩ else r

/-- Bottom-sentinel IntersectionObserver update of VirtualizedGalleryGrid:
when the bottom sentinel intersects and visibleRange.end < images.length,
the range becomes { start: prev.start, end: Math.min(images.length, prev.end + 20) }. -/
def bottomSentinelStep (len : Nat) (r : WindowRange) : WindowRange :=
  if r.stop < len then ⟨r.start, min len (r.stop + 20)⟩ else r

/-- Lightbox state owned by useLightbox (src/hooks/useLightbox.ts): the
isOpen and currentIndex useState cells.  currentIndex is a JavaScript
number, modelled as Int. -/
structure LightboxState where
  isOpen : Bool
  currentIndex : Int
deriving DecidableEq, Repr

/-- Initial lightbox state: useState(false) and useState(initialIndex);
GalleryContainer instantiates the hook with initialIndex = 0. -/
def lightboxInit (initialIndex : Int) : LightboxState :=
  ⟨false, initialIndex⟩

/-- The number branch of open in useLightbox:
index = Math.max(0, Math.min(imageOrIndex, images.length - 1));
setCurrentIndex(index); setIsOpen(true). -/
def openByIndex (images : List GalleryImage) (i : Int) (_s : LightboxState) :
    LightboxState :=
  ⟨true, max 0 (min i ((images.length : Int) - 1))⟩

/-- The image branch of open in useLightbox:
index = images.findIndex(img => img.id === imageOrIndex.id);
if found setCurrentIndex(index) else setCurrentIndex(images.length);
setIsOpen(true). -/
def openByImage (images : List GalleryImage) (img : GalleryImage)
    (_s : LightboxState) : LightboxState :=
  match images.findIdx? (fun x => x.id = img.id) with
  | some idx => ⟨true, (idx : Int)⟩
  | none => ⟨true, (images.length : Int)⟩

/-- close in useLightbox: setIsOpen(false); currentIndex is retained. -/
def closeLightbox (s : LightboxState) : LightboxState :=
  { s with isOpen := false }

/-- goTo in useLightbox:
validIndex = Math.max(0, Math.min(index, images.length - 1)). -/
def goTo (images : List GalleryImage) (i : Int) (s : LightboxState) :
    LightboxState :=
  { s with currentIndex := max 0 (min i ((images.length : Int) - 1)) }

/-- goToNext in useLightbox: if (images.length === 0) return;
setCurrentIndex(prev => (prev + 1) % images.length).  The JavaScript
remainder operator is Int.tmod. -/
def goToNext (images : List GalleryImage) (s : LightboxState) : LightboxState :=
  if images.length = 0 then s
  else { s with currentIndex := (s.currentIndex + 1).tmod (images.length : Int) }

/-- goToPrevious in useLightbox: if (images.length === 0) return;
setCurrentIndex(prev => (prev - 1 + images.length) % images.length). -/
def goToPrevious (images : List GalleryImage) (s : LightboxState) :
    LightboxState :=
  if images.length = 0 then s
  else
    { s with
      currentIndex :=
        (s.currentIndex - 1 + (images.length : Int)).tmod (images.length : Int) }

/-- currentImage in useLightbox: images[currentIndex] || null.  An
out-of-bounds or negative index reads undefined, which the || turns
into null (an image object is always truthy). -/
def currentImage (images : List GalleryImage) (s : LightboxState) :
    Option GalleryImage :=
  if s.currentIndex < 0 then none else images.get? s.currentIndex.toNat

/-- hasNext in useLightbox: currentIndex < images.length - 1. -/
def hasNext (images : List GalleryImage) (s : LightboxState) : Bool :=
  s.currentIndex < (images.length : Int) - 1

/-- hasPrevious in useLightbox: currentIndex > 0. -/
def hasPrevious (_images : List GalleryImage) (s : LightboxState) : Bool :=
  s.currentIndex > 0

/-- Accumulator state of the infinite query: the pages stored so far and
the page parameter of the fetch currently in flight, if any.  React
Query keeps at most one next-page fetch in flight; the parameter of a
fetch is the cursor (none is the initialPageParam undefined of the
first page). -/
structure AccState where
  pages : List GalleryResponse
  inFlight : Option (Option Int)
deriving DecidableEq, Repr

/-- The page parameter the infinite query would use for the next fetch:
the initialPageParam undefined for the first page, afterwards
getNextPageParam of the last stored page; none at all when
getNextPageParam returned undefined (no further page). -/
def nextParam (pages : List GalleryResponse) : Option (Option Int) :=
  match pages.getLast? with
  | none => some none
  | some lastPage =>
    match getNextPageParam lastPage with
    | none => none
    | some c => some (some c)

/-- One event of the pagination accumulator.  A fetch for the next page
can be dispatched only when no fetch is in flight, and its parameter is
forced by the cursor chain (the queryFn for page k+1 receives the
pageParam computed from page k, so it cannot be issued before page k
arrived); an in-flight fetch later arrives and its page is appended.
The delay between dispatch and arrival is the only interleaving freedom
the system has. -/
inductive AccStep (server : Option Int → GalleryResponse) :
    AccState → AccState → Prop
  | dispatch {s : AccState} {c : Option Int} (hfree : s.inFlight = none)
      (hnext : nextParam s.pages = some c) :
      AccStep server s ⟨s.pages, some c⟩
  | arrive {s : AccState} {c : Option Int} (hfly : s.inFlight = some c) :
      AccStep server s ⟨s.pages ++ [server c], none⟩

/-- Canonical in-page-order accumulation: the pages obtained by applying
k successful fetches strictly in page order, following the cursor chain
from the initial undefined page parameter. -/
def loadPages (server : Option Int → GalleryResponse) : Nat → List GalleryResponse
  | 0 => []
  | k + 1 =>
    match nextParam (loadPages server k) with
    | none => loadPages server k
    | some c => loadPages server k ++ [server c]

/-- Accumulator states reachable from the empty initial state by any
interleaving of dispatches and arrivals. -/
def AccReachable (server : Option Int → GalleryResponse) (s : AccState) : Prop :=
  Relation.ReflTransGen (AccStep server) ⟨[], none⟩ s

/-- Pinch gesture state stored in pinchStateRef by usePinchZoom
(src/hooks/usePinchZoom.ts): the two-touch distance and the scale in
effect when the gesture began.  Distances are exact rationals; the
claims quantify over the two-touch distances themselves, so the
Euclidean getDistance computation stays outside the model. -/
structure PinchState where
  initialDistance : Rat
  initialScale : Rat
deriving DecidableEq, Repr

/-- State of usePinchZoom: the pinchStateRef cell and the scale useState
cell. -/
structure PinchZoom where
  pinchState : Option PinchState
  scale : Rat
deriving DecidableEq, Repr

/-- updateScale in usePinchZoom:
clampedScale = Math.max(minScale, Math.min(maxScale, newScale));
setScale(clampedScale). -/
def updateScale (minScale maxScale newScale : Rat) : Rat :=
  max minScale (min maxScale newScale)

/-- handleTouchStart in usePinchZoom: with exactly two touches the
gesture begins, recording the current distance and the scale currently
in effect (the scale cell itself is not changed); any other touch count
resets the pinch state. -/
def handleTouchStart (touchCount : Nat) (distance : Rat) (s : PinchZoom) :
    PinchZoom :=
  if touchCount = 2 then
    { s with pinchState := some ⟨distance, s.scale⟩ }
  else
    { s with pinchState := none }

/-- handleTouchMove in usePinchZoom: ignored unless a pinch is in
progress and exactly two touches are present; otherwise
newScale = initialScale * (currentDistance / initialDistance) and
updateScale is applied. -/
def handleTouchMove (minScale maxScale : Rat) (touchCount : Nat)
    (currentDistance : Rat) (s : PinchZoom) : PinchZoom :=
  match s.pinchState with
  | none => s
  | some st =>
    if touchCount ≠ 2 then s
    else
      { s with
        scale :=
          updateScale minScale maxScale
            (st.initialScale * (currentDistance / st.initialDistance)) }

/-- handleTouchEnd in usePinchZoom: when fewer than two touches remain
the pinch state is discarded. -/
def handleTouchEnd (touchCount : Nat) (s : PinchZoom) : PinchZoom :=
  if touchCount < 2 then { s with pinchState := none } else s

/-- Error message thrown by GalleryApiClient.fetchGalleryImages
(src/api/client.ts) for a non-ok HTTP response: the FastAPI detail
message extracted from the body when one is present, otherwise the
fallback string built from the HTTP status; the catch block re-throws
the message with the Gallery fetch failed prefix. -/
def httpFailureMessage (status : Nat) (statusText : String)
    (detailMessage : Option String) : String :=
  let base :=
    match detailMessage with
    | some m => m
    | none => "Gallery API error: " ++ toString status ++ " " ++ statusText
  "Gallery fetch failed: " ++ base

/-- Error message thrown by fetchGalleryImages when the fetch itself
rejects (a network failure): the underlying message with the Gallery
fetch failed prefix. -/
def networkFailureMessage (underlying : String) : String :=
  "Gallery fetch failed: " ++ underlying

/-- The retry predicate of useGalleryImagesInfinite:
if (error instanceof Error AND error.message.includes(the digit 4))
return false; return failureCount < 3.  A one-character substring test
is membership of that character in the message character sequence.  The
test is literal: the code inspects the message text, not the HTTP
status class. -/
def shouldRetry (failureCount : Nat) (errorMessage : String) : Bool :=
  if errorMessage.data.contains '4' then false else failureCount < 3

/-- Observable outcome of one run of the deep-link effect in
GalleryContainer. -/
inductive DeepLinkAction where
  | nothing
  | openAt (idx : Nat)
  | fetchNext
  | navigateNotFound
deriving DecidableEq, Repr

/-- The deep-link effect of GalleryContainer
(src/containers/GalleryContainer/GalleryContainer.tsx).  The route
segment params.imageId is modelled already parsed: none stands for an
absent or empty segment, and a non-numeric segment also yields the
nothing action in the source (parseInt gives NaN, caught by the isNaN
guard), so it is folded into none.  A zero id is falsy in JavaScript,
hence the explicit zero tests mirroring !initialImageId and
!targetImageId. -/
def deepLinkEffect (initialImageId : Option Int) (paramsImageId : Option Int)
    (isLoading : Bool) (images : List GalleryImage)
    (hasNextPage isFetchingNextPage : Bool) : DeepLinkAction :=
  let initialFalsy :=
    match initialImageId with
    | none => true
    | some v => v = 0
  if initialFalsy && paramsImageId.isNone then .nothing
  else if isLoading || images.length == 0 then .nothing
  else
    let target : Option Int :=
      if initialFalsy then paramsImageId else initialImageId
    match target with
    | none => .nothing
    | some t =>
      if t = 0 then .nothing
      else
        match images.findIdx? (fun img => img.id = t) with
        | some idx => .openAt idx
        | none =>
          if hasNextPage && !isFetchingNextPage then .fetchNext
          else .navigateNotFound

/-- Concrete image fixture used by the concrete evaluations below. -/
def imgOf (i ord : Int) : GalleryImage :=
  ⟨i, "", none, ord⟩

/-- Concrete single-page fixture with a closed pagination record. -/
def pageOf (imgs : List GalleryImage) : GalleryResponse :=
  ⟨imgs, ⟨none, false, 0⟩⟩

/-- C8.  The claim places the breakpoints at 768 <= w < 1024 for two
columns and w >= 1024 for three, including the boundaries; the source
comparisons are strict (w > 768, w > 1024), so at exactly 768 the grid
uses 1 column (claim says 2) and at exactly 1024 it uses 2 (claim
says 3). -/
theorem itemsPerRow_boundary_counterexample :
    itemsPerRow 768 = 1 ∧ itemsPerRow 1024 = 2 ∧
      ¬(itemsPerRow 768 = 2 ∧ itemsPerRow 1024 = 3) := by
  decide

/-- C8 (amended).  Items per row is 1 for w <= 768, 2 for
768 < w <= 1024 and 3 for w > 1024: the breakpoints are exclusive at
768 and 1024. -/
theorem itemsPerRow_strict_breakpoints (w : Nat) :
    (w ≤ 768 → itemsPerRow w = 1) ∧
      (768 < w → w ≤ 1024 → itemsPerRow w = 2) ∧
      (1024 < w → itemsPerRow w = 3) := by
  unfold itemsPerRow
  refine ⟨fun h => ?_, fun h1 h2 => ?_, fun h => ?_⟩ <;> split_ifs <;> omega

/-- C8 witness: the amended breakpoint theorem evaluated at widths 500,
800 and 1200. -/
theorem itemsPerRow_strict_breakpoints_witness :
    itemsPerRow 500 = 1 ∧ itemsPerRow 800 = 2 ∧ itemsPerRow 1200 = 3 :=
  ⟨(itemsPerRow_strict_breakpoints 500).1 (by decide),
   (itemsPerRow_strict_breakpoints 800).2.1 (by decide) (by decide),
   (itemsPerRow_strict_breakpoints 1200).2.2 (by decide)⟩

/-- C5.  The retry predicate looks for the digit 4 in the error message
instead of the HTTP status class: a 400 response whose FastAPI detail
message is Invalid limit parameter is retried at failure counts 0, 1
and 2 (the claim says a 4xx failure is never retried), while a 504
response is never retried (the claim says every 5xx failure is retried
up to 3 attempts); a plain network failure is retried and capped at 3
attempts as claimed. -/
theorem shouldRetry_ignores_status_class :
    shouldRetry 0 (httpFailureMessage 400 "Bad Request"
        (some "Invalid limit parameter")) = true ∧
    shouldRetry 2 (httpFailureMessage 400 "Bad Request"
        (some "Invalid limit parameter")) = true ∧
    shouldRetry 0 (httpFailureMessage 504 "Gateway Timeout" none) = false ∧
    shouldRetry 0 (networkFailureMessage "Network error") = true ∧
    shouldRetry 3 (networkFailureMessage "Network error") = false := by
  decide

/-- C7.  One run of the deep-link effect with the target id absent from
the loaded images: with a next page available and no fetch in flight it
triggers fetchNextPage as claimed, but when the fetch it just triggered
is still in flight the else branch navigates to the not-found route
even though more pages exist; and with an empty collection the effect
returns early, producing no not-found signal even when no more pages
exist. -/
theorem deepLinkEffect_notfound_behaviour :
    deepLinkEffect none (some 999) false [imgOf 1 1] true false =
      DeepLinkAction.fetchNext ∧
    deepLinkEffect none (some 999) false [imgOf 1 1] true true =
      DeepLinkAction.navigateNotFound ∧
    deepLinkEffect none (some 999) false [imgOf 1 1] false false =
      DeepLinkAction.navigateNotFound ∧
    deepLinkEffect none (some 999) false [] false false =
      DeepLinkAction.nothing ∧
    deepLinkEffect none (some 2) false [imgOf 1 1, imgOf 2 2] false false =
      DeepLinkAction.openAt 1 := by
  decide

/-- C2.  Opening the lightbox by an Image value whose id is not in the
collection leaves it open at currentIndex = images.length, an index
with no corresponding image (currentImage is null); opening by index on
an empty collection leaves it open at index 0 of a collection of length
0. -/
theorem open_unknown_image_invalid_index :
    (openByImage [imgOf 1 1, imgOf 2 2, imgOf 3 3] (imgOf 999 9)
        (lightboxInit 0)).isOpen = true ∧
    (openByImage [imgOf 1 1, imgOf 2 2, imgOf 3 3] (imgOf 999 9)
        (lightboxInit 0)).currentIndex = 3 ∧
    currentImage [imgOf 1 1, imgOf 2 2, imgOf 3 3]
      (openByImage [imgOf 1 1, imgOf 2 2, imgOf 3 3] (imgOf 999 9)
        (lightboxInit 0)) = none ∧
    (openByIndex [] 0 (lightboxInit 0)).isOpen = true ∧
    currentImage [] (openByIndex [] 0 (lightboxInit 0)) = none := by
  decide

/-- C10.  On an empty collection every lightbox operation is total and
safe: from the reachable index 0 (the initial index and the value every
operation produces on an empty collection), currentImage is null,
hasNext and hasPrevious are false, goToNext and goToPrevious leave the
state unchanged, and goTo and open-by-index with any integer argument
clamp the index to 0. -/
theorem lightbox_empty_collection_total (s : LightboxState) (i : Int)
    (h : s.currentIndex = 0) :
    currentImage [] s = none ∧
    hasNext [] s = false ∧
    hasPrevious [] s = false ∧
    goToNext [] s = s ∧
    goToPrevious [] s = s ∧
    (goTo [] i s).currentIndex = 0 ∧
    (goTo [] i s).isOpen = s.isOpen ∧
    (openByIndex [] i s).currentIndex = 0 := by
  obtain ⟨o, c⟩ := s
  simp only [LightboxState.mk.injEq] at h
  subst h
  refine ⟨?_, ?_, ?_, ?_, ?_, ?_, ?_, ?_⟩
  · simp [currentImage]
  · simp [hasNext]
  · simp [hasPrevious]
  · rfl
  · rfl
  · simp only [goTo, List.length_nil]
    omega
  · rfl
  · simp only [openByIndex, List.length_nil]
    omega

/-- C10 witness: the empty-collection safety theorem evaluated at the
initial state and the argument -3. -/
theorem lightbox_empty_collection_total_witness :
    currentImage [] (lightboxInit 0) = none ∧
    hasNext [] (lightboxInit 0) = false ∧
    hasPrevious [] (lightboxInit 0) = false ∧
    goToNext [] (lightboxInit 0) = lightboxInit 0 ∧
    goToPrevious [] (lightboxInit 0) = lightboxInit 0 ∧
    (goTo [] (-3) (lightboxInit 0)).currentIndex = 0 ∧
    (goTo [] (-3) (lightboxInit 0)).isOpen = (lightboxInit 0).isOpen ∧
    (openByIndex [] (-3) (lightboxInit 0)).currentIndex = 0 :=
  lightbox_empty_collection_total (lightboxInit 0) (-3) rfl

/-- C4.  The WindowRange invariant fails on the code: with viewport
width 500, height 600, scroll offset 3000 and a 5-item collection, the
scroll handler computes start 9 and end 5, so start > end, and the
significant-change filter adopts that range; moreover the bottom
sentinel grows a window of width 2011, far beyond the scroll-computed
buffer-derived maximum of 11, so the mounted item count is not bounded
by a viewport constant. -/
theorem windowRange_invariant_counterexample :
    (handleScrollRange 500 600 3000 5).start = 9 ∧
    (handleScrollRange 500 600 3000 5).stop = 5 ∧
    ¬((handleScrollRange 500 600 3000 5).start ≤
        (handleScrollRange 500 600 3000 5).stop) ∧
    commitScrollRange (itemsPerRow 500) ⟨0, 50⟩
        (handleScrollRange 500 600 3000 5) = ⟨9, 5⟩ ∧
    (bottomSentinelStep 10000)^[100] ⟨0, 11⟩ = ⟨0, 2011⟩ ∧
    2011 - 0 > rowsInViewport 600 * itemsPerRow 500 + itemsPerRow 500 * 2 := by
  set_option maxRecDepth 4000 in decide

/-- C4 (amended).  The mount-effect range always satisfies
start = 0 and stop <= len; the scroll-computed range satisfies
stop <= len, width stop - start bounded by the viewport-derived
constant visibleCount + 2 * itemsPerRow, and start <= stop whenever
start <= len (a scroll offset pointing past the content can produce
start > stop); the sentinel extensions preserve
start <= stop <= len but are not width-bounded by any constant. -/
theorem windowRange_invariant_amended :
    (∀ w h len, (initialVisibleRange w h len).start = 0 ∧
        (initialVisibleRange w h len).stop ≤ len) ∧
    (∀ w h st len,
        (handleScrollRange w h st len).stop ≤ len ∧
        (handleScrollRange w h st len).stop - (handleScrollRange w h st len).start ≤
          rowsInViewport h * itemsPerRow w + itemsPerRow w * 2 ∧
        ((handleScrollRange w h st len).start ≤ len →
          (handleScrollRange w h st len).start ≤ (handleScrollRange w h st len).stop)) ∧
    (∀ (r : WindowRange) (len : Nat), r.start ≤ r.stop → r.stop ≤ len →
        (topSentinelStep r).start ≤ (topSentinelStep r).stop ∧
        (topSentinelStep r).stop ≤ len ∧
        (bottomSentinelStep len r).start ≤ (bottomSentinelStep len r).stop ∧
        (bottomSentinelStep len r).stop ≤ len) := by
  refine ⟨fun w h len => ?_, fun w h st len => ?_, fun r len h1 h2 => ?_⟩
  · constructor
    · rfl
    · simp only [initialVisibleRange]
      omega
  · simp only [handleScrollRange]
    refine ⟨?_, ?_, ?_⟩ <;> omega
  · unfold topSentinelStep bottomSentinelStep
    split_ifs <;> simp_all <;> omega

/-- C4 witness: the amended window-range theorem evaluated at concrete
viewport geometry, with the conditional conclusions discharged at
inputs satisfying their hypotheses. -/
theorem windowRange_invariant_amended_witness :
    (initialVisibleRange 500 600 7).stop ≤ 7 ∧
    (handleScrollRange 500 600 0 10000).stop ≤ 10000 ∧
    (handleScrollRange 500 600 0 10000).start ≤ (handleScrollRange 500 600 0 10000).stop ∧
    (topSentinelStep ⟨30, 50⟩).start ≤ (topSentinelStep ⟨30, 50⟩).stop ∧
    (bottomSentinelStep 100 ⟨30, 50⟩).stop ≤ 100 :=
  ⟨(windowRange_invariant_amended.1 500 600 7).2,
   (windowRange_invariant_amended.2.1 500 600 0 10000).1,
   (windowRange_invariant_amended.2.1 500 600 0 10000).2.2 (by decide),
   (windowRange_invariant_amended.2.2 ⟨30, 50⟩ 100 (by decide) (by decide)).1,
   (windowRange_invariant_amended.2.2 ⟨30, 50⟩ 100 (by decide) (by decide)).2.2.2⟩

/-- C1.  The code merges pages by plain concatenation: an image whose id
is already present is not dropped (a re-fetched page duplicates it),
and a page arriving with smaller order values is appended after, not
inserted before, so the Collection is neither deduplicated by id nor
sorted by order in general. -/
theorem flatten_merge_counterexample :
    flattenGalleryImages (some ⟨[pageOf [imgOf 1 1], pageOf [imgOf 1 1]]⟩) =
      [imgOf 1 1, imgOf 1 1] ∧
    ¬(flattenGalleryImages
        (some ⟨[pageOf [imgOf 1 1], pageOf [imgOf 1 1]]⟩)).Pairwise
        (fun a b => a.id ≠ b.id) ∧
    flattenGalleryImages (some ⟨[pageOf [imgOf 2 5], pageOf [imgOf 1 1]]⟩) =
      [imgOf 2 5, imgOf 1 1] ∧
    ¬(flattenGalleryImages
        (some ⟨[pageOf [imgOf 2 5], pageOf [imgOf 1 1]]⟩)).Pairwise
        (fun a b => a.display_order ≤ b.display_order) := by
  decide

/-- C1 (amended).  For every sequence of fetched pages, with no
hypotheses at all, the Collection is exactly the concatenation of the
pages in page order, with no deduplication and no reordering (so a
re-fetched page duplicates its images); and it is ascending by order,
respectively duplicate-free by id, if and only if the fetched pages
jointly are: each page internally so, and every image of an earlier
page related to every image of a later page. -/
theorem flatten_is_concat_amended (pages : List GalleryResponse) :
    flattenGalleryImages (some ⟨pages⟩) =
      (pages.map (fun p => p.images)).flatten ∧
    ((flattenGalleryImages (some ⟨pages⟩)).Pairwise
        (fun a b => a.display_order ≤ b.display_order) ↔
      (∀ p ∈ pages,
        p.images.Pairwise (fun a b => a.display_order ≤ b.display_order)) ∧
      pages.Pairwise (fun p q => ∀ a ∈ p.images, ∀ b ∈ q.images,
        a.display_order ≤ b.display_order)) ∧
    ((flattenGalleryImages (some ⟨pages⟩)).Pairwise (fun a b => a.id ≠ b.id) ↔
      (∀ p ∈ pages, p.images.Pairwise (fun a b => a.id ≠ b.id)) ∧
      pages.Pairwise (fun p q => ∀ a ∈ p.images, ∀ b ∈ q.images,
        a.id ≠ b.id)) :=
  ⟨rfl, List.pairwise_flatMap, List.pairwise_flatMap⟩

/-- C1 witness: the amended theorem evaluated on a re-fetched page (the
duplication case its hypotheses-free concatenation equality covers) and
on two jointly ordered, id-distinct pages. -/
theorem flatten_is_concat_amended_witness :
    flattenGalleryImages (some ⟨[pageOf [imgOf 1 1], pageOf [imgOf 1 1]]⟩) =
      ([pageOf [imgOf 1 1], pageOf [imgOf 1 1]].map (fun p => p.images)).flatten ∧
    flattenGalleryImages (some ⟨[pageOf [imgOf 1 1], pageOf [imgOf 2 2]]⟩) =
      ([pageOf [imgOf 1 1], pageOf [imgOf 2 2]].map (fun p => p.images)).flatten ∧
    (flattenGalleryImages
        (some ⟨[pageOf [imgOf 1 1], pageOf [imgOf 2 2]]⟩)).Pairwise
      (fun a b => a.id ≠ b.id) :=
  ⟨(flatten_is_concat_amended [pageOf [imgOf 1 1], pageOf [imgOf 1 1]]).1,
   (flatten_is_concat_amended [pageOf [imgOf 1 1], pageOf [imgOf 2 2]]).1,
   (flatten_is_concat_amended [pageOf [imgOf 1 1], pageOf [imgOf 2 2]]).2.2.mpr
     ⟨by decide, by decide⟩⟩

/-- goToNext never changes the isOpen flag. -/
theorem goToNext_isOpen (images : List GalleryImage) (s : LightboxState) :
    (goToNext images s).isOpen = s.isOpen := by
  unfold goToNext
  split <;> rfl

/-- On a non-empty collection, goToNext from a non-negative index is
plain successor arithmetic modulo the collection length. -/
theorem goToNext_currentIndex (images : List GalleryImage) (s : LightboxState)
    (hne : images.length ≠ 0) (h0 : 0 ≤ s.currentIndex) :
    (goToNext images s).currentIndex =
      (s.currentIndex + 1) % (images.length : Int) := by
  unfold goToNext
  rw [if_neg hne]
  exact Int.tmod_eq_emod (by omega) (by positivity)

/-- On a non-empty collection, goToPrevious from a non-negative index is
predecessor arithmetic modulo the collection length. -/
theorem goToPrevious_currentIndex (images : List GalleryImage)
    (s : LightboxState) (hne : images.length ≠ 0) (h0 : 0 ≤ s.currentIndex) :
    (goToPrevious images s).currentIndex =
      (s.currentIndex - 1 + (images.length : Int)) % (images.length : Int) := by
  unfold goToPrevious
  rw [if_neg hne]
  refine Int.tmod_eq_emod ?_ (by positivity)
  have : (1 : Int) ≤ (images.length : Int) := by
    omega
  omega

/-- Iterating goToNext k times from a valid index lands on the index
shifted by k modulo the collection length, with isOpen untouched. -/
theorem goToNext_iterate (images : List GalleryImage) (s : LightboxState)
    (k : Nat) (hne : images.length ≠ 0) (h0 : 0 ≤ s.currentIndex)
    (hlt : s.currentIndex < (images.length : Int)) :
    ((goToNext images)^[k] s).currentIndex =
      (s.currentIndex + (k : Int)) % (images.length : Int) ∧
    ((goToNext images)^[k] s).isOpen = s.isOpen := by
  induction k with
  | zero =>
    constructor
    · simp only [Function.iterate_zero, id_eq, Nat.cast_zero, Int.add_zero]
      exact (Int.emod_eq_of_lt h0 hlt).symm
    · rfl
  | succ k ih =>
    obtain ⟨hidx, hio⟩ := ih
    rw [Function.iterate_succ_apply']
    have hn0 : (0 : Int) < (images.length : Int) := by omega
    have hnn : 0 ≤ ((goToNext images)^[k] s).currentIndex := by
      rw [hidx]
      exact Int.emod_nonneg _ (by omega)
    constructor
    · rw [goToNext_currentIndex images _ hne hnn, hidx]
      rw [Int.add_emod ((s.currentIndex + (k : Int)) % (images.length : Int)) 1,
        Int.emod_emod_of_dvd _ dvd_rfl, ← Int.add_emod]
      push_cast
      ring_nf
    · rw [goToNext_isOpen, hio]

/-- C3.  While the lightbox is over a non-empty collection of length n,
goToNext from a valid index i moves to (i + 1) mod n and goToPrevious
moves to (i - 1 + n) mod n, unconditionally: next from the last index
lands on 0 and previous from 0 lands on the last index, with no
hasNext/hasPrevious guard in either operation; and goToNext composed n
times from any starting state restores that state exactly. -/
theorem goToNext_goToPrevious_wraparound (images : List GalleryImage)
    (s : LightboxState) (hne : images.length ≠ 0) (h0 : 0 ≤ s.currentIndex)
    (hlt : s.currentIndex < (images.length : Int)) :
    (goToNext images s).currentIndex =
      (s.currentIndex + 1) % (images.length : Int) ∧
    (goToPrevious images s).currentIndex =
      (s.currentIndex - 1 + (images.length : Int)) % (images.length : Int) ∧
    (s.currentIndex = (images.length : Int) - 1 →
      (goToNext images s).currentIndex = 0) ∧
    (s.currentIndex = 0 →
      (goToPrevious images s).currentIndex = (images.length : Int) - 1) ∧
    (goToNext images)^[images.length] s = s := by
  have hnext := goToNext_currentIndex images s hne h0
  have hprev := goToPrevious_currentIndex images s hne h0
  have hlen : (0 : Int) < (images.length : Int) := by omega
  refine ⟨hnext, hprev, ?_, ?_, ?_⟩
  · intro hlast
    rw [hnext, hlast]
    simp [Int.sub_add_cancel, Int.emod_self]
  · intro hfirst
    rw [hprev, hfirst]
    have : (0 : Int) - 1 + (images.length : Int) = (images.length : Int) - 1 := by
      ring
    rw [this]
    exact Int.emod_eq_of_lt (by omega) (by omega)
  · obtain ⟨hidx, hio⟩ :=
      goToNext_iterate images s images.length hne h0 hlt
    have hback : ((goToNext images)^[images.length] s).currentIndex =
        s.currentIndex := by
      rw [hidx, Int.add_emod_self]
      exact Int.emod_eq_of_lt h0 hlt
    obtain ⟨o, i⟩ := s
    cases hsplit : (goToNext images)^[images.length] (⟨o, i⟩ : LightboxState) with
    | mk o2 i2 =>
      rw [hsplit] at hback hio
      simp only at hback hio
      rw [hback, hio]

/-- C3 witness: the wrap-around theorem evaluated on a three-image
collection from the last valid index 2 with the lightbox open. -/
theorem goToNext_goToPrevious_wraparound_witness :
    (goToNext [imgOf 1 1, imgOf 2 2, imgOf 3 3] ⟨true, 2⟩).currentIndex =
      (2 + 1) % (([imgOf 1 1, imgOf 2 2, imgOf 3 3].length : Int)) ∧
    (goToPrevious [imgOf 1 1, imgOf 2 2, imgOf 3 3] ⟨true, 2⟩).currentIndex =
      (2 - 1 + (([imgOf 1 1, imgOf 2 2, imgOf 3 3].length : Int))) %
        (([imgOf 1 1, imgOf 2 2, imgOf 3 3].length : Int)) ∧
    ((2 : Int) = (([imgOf 1 1, imgOf 2 2, imgOf 3 3].length : Int)) - 1 →
      (goToNext [imgOf 1 1, imgOf 2 2, imgOf 3 3] ⟨true, 2⟩).currentIndex = 0) ∧
    ((2 : Int) = 0 →
      (goToPrevious [imgOf 1 1, imgOf 2 2, imgOf 3 3] ⟨true, 2⟩).currentIndex =
        (([imgOf 1 1, imgOf 2 2, imgOf 3 3].length : Int)) - 1) ∧
    (goToNext [imgOf 1 1, imgOf 2 2, imgOf 3 3])^[3] ⟨true, 2⟩ = ⟨true, 2⟩ :=
  goToNext_goToPrevious_wraparound [imgOf 1 1, imgOf 2 2, imgOf 3 3]
    ⟨true, 2⟩ (by decide) (by decide) (by decide)

/-- Rerunning the in-order accumulation for exactly the number of pages
already accumulated reproduces those pages: loadPages is determined by
the length of its result. -/
theorem loadPages_stable (server : Option Int → GalleryResponse) (k : Nat) :
    loadPages server ((loadPages server k).length) = loadPages server k := by
  induction k with
  | zero => rfl
  | succ k ih =>
    cases hnp : nextParam (loadPages server k) with
    | none =>
      simp only [loadPages, hnp]
      exact ih
    | some c =>
      simp only [loadPages, hnp, List.length_append, List.length_cons,
        List.length_nil]
      have hlen : (loadPages server k).length + 1 =
          (loadPages server k).length + 1 := rfl
      show loadPages server ((loadPages server k).length + 1) =
        loadPages server k ++ [server c]
      simp only [loadPages, ih, hnp]

/-- Invariant of every reachable accumulator state: its pages are an
in-order accumulation, and any in-flight fetch carries exactly the page
parameter the cursor chain dictates for those pages. -/
theorem accReachable_invariant (server : Option Int → GalleryResponse)
    (s : AccState) (h : AccReachable server s) :
    (∃ k, s.pages = loadPages server k) ∧
      ∀ c, s.inFlight = some c → nextParam s.pages = some c := by
  induction h with
  | refl =>
    refine ⟨⟨0, rfl⟩, ?_⟩
    intro c hc
    cases hc
  | tail _hsteps hstep ih =>
    obtain ⟨⟨k, hk⟩, hfly⟩ := ih
    cases hstep with
    | dispatch hfree hnext =>
      refine ⟨⟨k, hk⟩, ?_⟩
      intro c' hc'
      cases hc'
      exact hnext
    | arrive hfly2 =>
      rename_i b c
      have hnp : nextParam b.pages = some c := hfly c hfly2
      have hstable : loadPages server b.pages.length = b.pages := by
        conv_lhs => rw [hk, ← hk]
        rw [hk]
        exact loadPages_stable server k
      refine ⟨⟨b.pages.length + 1, ?_⟩, ?_⟩
      · show b.pages ++ [server c] = loadPages server (b.pages.length + 1)
        simp only [loadPages, hstable, hnp]
      · intro c' hc'
        cases hc'

/-- C6.  Pages cannot be applied out of order: the cursor chain forces
each fetch to wait for the previous page (its page parameter is
computed from that page), so in every state reachable under any
interleaving of dispatches and arrivals the stored pages equal the
strict in-page-order accumulation, and the flattened Collection equals
the Collection obtained by applying the pages strictly in page
order. -/
theorem accumulator_order_independent (server : Option Int → GalleryResponse)
    (s : AccState) (h : AccReachable server s) :
    s.pages = loadPages server s.pages.length ∧
    flattenGalleryImages (some ⟨s.pages⟩) =
      flattenGalleryImages (some ⟨loadPages server s.pages.length⟩) := by
  obtain ⟨⟨k, hk⟩, -⟩ := accReachable_invariant server s h
  have hs : loadPages server s.pages.length = s.pages := by
    rw [hk]
    exact loadPages_stable server k
  exact ⟨hs.symm, by rw [hs]⟩

/-- Constant server fixture: every cursor yields the same single-image
page whose has_more flag is false. -/
def server0 : Option Int → GalleryResponse :=
  fun _ => pageOf [imgOf 1 1]

/-- C6 witness: the order-independence theorem applied to the state
reached by one dispatch followed by one arrival. -/
theorem accumulator_order_independent_witness :
    (AccState.mk [pageOf [imgOf 1 1]] none).pages =
      loadPages server0 (AccState.mk [pageOf [imgOf 1 1]] none).pages.length ∧
    flattenGalleryImages (some ⟨(AccState.mk [pageOf [imgOf 1 1]] none).pages⟩) =
      flattenGalleryImages
        (some ⟨loadPages server0
          (AccState.mk [pageOf [imgOf 1 1]] none).pages.length⟩) :=
  accumulator_order_independent server0 (AccState.mk [pageOf [imgOf 1 1]] none)
    (Relation.ReflTransGen.tail
      (Relation.ReflTransGen.tail Relation.ReflTransGen.refl
        (AccStep.dispatch rfl rfl))
      (AccStep.arrive rfl))


/-- handleTouchMove never changes the stored pinch state. -/
theorem handleTouchMove_pinchState (mn mx : Rat) (tc : Nat) (d : Rat)
    (s : PinchZoom) :
    (handleTouchMove mn mx tc d s).pinchState = s.pinchState := by
  obtain ⟨ps, sc⟩ := s
  cases ps with
  | none => rfl
  | some st =>
    simp only [handleTouchMove]
    split <;> rfl

/-- With two touches and a pinch in progress, handleTouchMove emits the
clamped rescaling of the gesture-start scale. -/
theorem handleTouchMove_scale (mn mx d : Rat) (s : PinchZoom)
    (st : PinchState) (hs : s.pinchState = some st) :
    (handleTouchMove mn mx 2 d s).scale =
      updateScale mn mx (st.initialScale * (d / st.initialDistance)) := by
  obtain ⟨ps, sc⟩ := s
  simp only at hs
  subst hs
  simp [handleTouchMove]

/-- A whole sequence of move events leaves the stored pinch state
untouched. -/
theorem foldl_moves_pinchState (mn mx : Rat) (ds : List Rat) (s : PinchZoom) :
    (ds.foldl (fun acc dc => handleTouchMove mn mx 2 dc acc) s).pinchState =
      s.pinchState := by
  induction ds generalizing s with
  | nil => rfl
  | cons d ds ih =>
    simp only [List.foldl_cons, ih, handleTouchMove_pinchState]

/-- C9.  After a pinch gesture begins with two touches at distance d0
while scale s0 is in effect, every move event with two touches at
distance d, no matter how many moves preceded it, emits exactly
clamp(s0 * (d / d0), minScale, maxScale); with the default bounds
[1, 5], touches going from 100px to 300px apart at starting scale 1
yield scale 3, and going to 600px apart (raw ratio 6) is clamped
to 5. -/
theorem pinch_scale_clamped (mn mx s0 d0 d : Rat) (ps : Option PinchState)
    (pre : List Rat) (_hd0 : 0 < d0) :
    (handleTouchMove mn mx 2 d
        (pre.foldl (fun acc dc => handleTouchMove mn mx 2 dc acc)
          (handleTouchStart 2 d0 ⟨ps, s0⟩))).scale =
      max mn (min mx (s0 * (d / d0))) ∧
    (handleTouchMove 1 5 2 300 (handleTouchStart 2 100 ⟨ps, 1⟩)).scale = 3 ∧
    (handleTouchMove 1 5 2 600 (handleTouchStart 2 100 ⟨ps, 1⟩)).scale = 5 := by
  have hstart : (handleTouchStart 2 d0 (⟨ps, s0⟩ : PinchZoom)).pinchState =
      some ⟨d0, s0⟩ := rfl
  refine ⟨?_, ?_, ?_⟩
  · have hps : (pre.foldl (fun acc dc => handleTouchMove mn mx 2 dc acc)
        (handleTouchStart 2 d0 ⟨ps, s0⟩)).pinchState = some ⟨d0, s0⟩ := by
      rw [foldl_moves_pinchState, hstart]
    rw [handleTouchMove_scale mn mx d _ _ hps]
    rfl
  · rw [handleTouchMove_scale 1 5 300 _ _ rfl]
    norm_num [updateScale]
  · rw [handleTouchMove_scale 1 5 600 _ _ rfl]
    norm_num [updateScale]

/-- C9 witness: the clamped pinch-scale theorem evaluated at the
100px-to-300px scenario with default bounds and no preceding moves. -/
theorem pinch_scale_clamped_witness :
    (handleTouchMove 1 5 2 300
        (([] : List Rat).foldl (fun acc dc => handleTouchMove 1 5 2 dc acc)
          (handleTouchStart 2 100 ⟨none, 1⟩))).scale =
      max 1 (min 5 ((1 : Rat) * (300 / 100))) ∧
    (handleTouchMove 1 5 2 300 (handleTouchStart 2 100 ⟨none, 1⟩)).scale = 3 ∧
    (handleTouchMove 1 5 2 600 (handleTouchStart 2 100 ⟨none, 1⟩)).scale = 5 :=
  pinch_scale_clamped 1 5 1 100 300 none [] (by norm_num)
